import Mathlib

/-!
Shallow embedding of the spatial-data utility layer of EcohydroLib
(src/ecohydrolib/spatialdata/utils.py, with the older near-duplicate
src/ecohydroworkflowlib/spatialdata/utils.py), together with theorems that
settle the claims about bounding-box operations, coordinate-system helpers,
shapefile filter construction and raster resampling.

Python floats are modelled as rationals.  Calls into external libraries
(pyproj projections, the geodesic polygon-area routine, GDAL/OGR dataset
handles, the filesystem and subprocesses) are modelled by explicit
parameters and environment records, while everything the Python module
computes itself is translated line by line.
-/

set_option autoImplicit false

/-- Bounding box dictionary as built throughout spatialdata/utils.py:
keys minX, minY, maxX, maxY and an srs identifier string. -/
structure BBox where
  minX : ℚ
  minY : ℚ
  maxX : ℚ
  maxY : ℚ
  srs : String
deriving DecidableEq, Repr

/-- Ordering part of the documented bounding-box invariant. -/
def bboxOrd (b : BBox) : Prop :=
  b.minX ≤ b.maxX ∧ b.minY ≤ b.maxY

instance (b : BBox) : Decidable (bboxOrd b) := by
  unfold bboxOrd
  infer_instance

/-- Property of being a CRS identifier string of the form EPSG:code. -/
def epsgForm (s : String) : Prop :=
  ∃ n : ℕ, s = "EPSG:" ++ toString n

theorem epsgForm_wgs84 : epsgForm "EPSG:4326" :=
  ⟨4326, by decide⟩

/-- Embedding of bboxFromString (utils.py lines 74-83).  The Python code
splits the wire string on whitespace and converts the first four tokens
with float; the whitespace split and float parsing are external to the
module, so the function is embedded over the list of parsed tokens.
Fewer than four tokens raise an IndexError, modelled as none. -/
def bboxFromString (nums : List ℚ) : Option BBox :=
  match nums with
  | minX :: minY :: maxX :: maxY :: _ =>
      some { minX := minX, minY := minY, maxX := maxX, maxY := maxY, srs := "EPSG:4326" }
  | _ => none

/-- Embedding of getUTMZoneFromCoordinates (utils.py lines 101-113):
zone is int((floor((longitude + 180)/6) + 1) % 60) and isNorth is set
exactly when latitude > 0. -/
def getUTMZoneFromCoordinates (longitude latitude : ℚ) : ℤ × Bool :=
  ((⌊(longitude + 180) / 6⌋ + 1) % 60, if latitude > 0 then true else false)

/-- Assertion failure raised by a bare Python assert statement. -/
inductive AssertError where
  | assertionError
deriving DecidableEq, Repr

/-- Embedding of isCoordinatePairInBoundingBox (utils.py lines 451-469).
The function asserts srs = EPSG:4326, then returns False when the
longitude is strictly outside [minX, maxX] or the latitude strictly
outside [minY, maxY], and True otherwise. -/
def isCoordinatePairInBoundingBox (bbox : BBox) (coordinates : ℚ × ℚ) :
    Except AssertError Bool :=
  if bbox.srs = "EPSG:4326" then
    let lon := coordinates.1
    let lat := coordinates.2
    if lon < bbox.minX ∨ lon > bbox.maxX then .ok false
    else if lat < bbox.minY ∨ lat > bbox.maxY then .ok false
    else .ok true
  else .error .assertionError

/-- Embedding of calculateBoundingBoxCenter (utils.py lines 472-483). -/
def calculateBoundingBoxCenter (bbox : BBox) : ℚ × ℚ :=
  let x_diff := (bbox.maxX - bbox.minX) / 2
  let y_diff := (bbox.maxY - bbox.minY) / 2
  (bbox.minX + x_diff, bbox.minY + y_diff)

/-- Polygon corner as built by calculateBoundingBoxAreaSqMeters: a dict
with keys lat and lon. -/
structure AreaPoint where
  lat : ℚ
  lon : ℚ
deriving DecidableEq, Repr

/-- Corner list built by calculateBoundingBoxAreaSqMeters (utils.py lines
494-498) before it hands the polygon to the external pyproj geodesic
area routine: minY/minX, minY/maxX, maxY/maxX, maxY/minX.  The numeric
area itself is computed by pyproj and stays external to the embedding. -/
def calculateBoundingBoxAreaPoints (bbox : BBox) : List AreaPoint :=
  [ { lat := bbox.minY, lon := bbox.minX },
    { lat := bbox.minY, lon := bbox.maxX },
    { lat := bbox.maxY, lon := bbox.maxX },
    { lat := bbox.maxY, lon := bbox.minX } ]

/-- Embedding of bufferBoundingBox (utils.py lines 597-622).  The Python
function mutates the dict in place; the embedding returns the updated
box.  The four correction lines are translated exactly, including line
618, which tests minY (not maxY) against the upper latitude bound before
overwriting maxY. -/
def bufferBoundingBox (bbox : BBox) (buffer : ℚ) : BBox :=
  if buffer > 0 then
    let minX0 := bbox.minX - buffer
    let minY0 := bbox.minY - buffer
    let maxX0 := bbox.maxX + buffer
    let maxY0 := bbox.maxY + buffer
    let minX1 := if minX0 < -180 then 360 + minX0 else minX0
    let minY1 := if minY0 < -90 then -90 else minY0
    let maxX1 := if maxX0 > 180 then -360 + maxX0 else maxX0
    let maxY1 := if minY1 > 90 then 90 else maxY0
    { minX := minX1, minY := minY1, maxX := maxX1, maxY := maxY1, srs := bbox.srs }
  else bbox

/-- Errors that can escape tileBoundingBox (utils.py lines 505-539): the
assert on the srs key, and the NameError raised by the tiling branch,
whose first statement evaluates geod.fwd although no module-level name
geod (nor NORTH, nor EAST) is ever defined in either copy of the
module. -/
inductive TileError where
  | assertionError
  | nameErrorGeodUndefined
deriving DecidableEq, Repr

/-- Embedding of tileBoundingBox (utils.py lines 505-539).  The geodesic
area of the box is computed by the external pyproj polygon-area routine,
so it is passed in as the function parameter area.  When the area is
within the threshold the box is returned as the only tile.  Otherwise the
Python code enters the while loop over latitudes: if minY < maxY the loop
body runs and its first statement raises NameError (the names geod, NORTH
and EAST are undefined in the module); if minY >= maxY the loop body
never runs and the empty tile list is returned. -/
def tileBoundingBox (area : BBox → ℚ) (bbox : BBox) (threshold : ℚ) :
    Except TileError (List BBox) :=
  if bbox.srs = "EPSG:4326" then
    if area bbox ≤ threshold then .ok [bbox]
    else if bbox.minY < bbox.maxY then .error .nameErrorGeodUndefined
    else .ok []
  else .error .assertionError

/-- Feature envelope after per-corner reprojection to WGS84, i.e. the
values tmpMinX, tmpMinY, tmpMaxX, tmpMaxY computed by the loop of
getBoundingBoxForShapefile (utils.py lines 572-589).  The reprojection
itself is performed by the external pyproj transform, so the embedding
receives the already transformed envelopes. -/
structure Envelope where
  minX : ℚ
  minY : ℚ
  maxX : ℚ
  maxY : ℚ
deriving DecidableEq, Repr

/-- Ordering property of an envelope. -/
def envOrd (e : Envelope) : Prop :=
  e.minX ≤ e.maxX ∧ e.minY ≤ e.maxY

instance (e : Envelope) : Decidable (envOrd e) := by
  unfold envOrd
  infer_instance

/-- Initial accumulator of getBoundingBoxForShapefile (utils.py lines
555-558): minX = 0.0, minY = 90.0, maxX = -180.0, maxY = 0.0. -/
def shpSeed : Envelope :=
  { minX := 0, minY := 90, maxX := -180, maxY := 0 }

/-- One iteration of the feature loop of getBoundingBoxForShapefile
(utils.py lines 580-587): running min/max update against one transformed
envelope. -/
def shpStep (acc : Envelope) (e : Envelope) : Envelope :=
  { minX := if e.minX < acc.minX then e.minX else acc.minX,
    minY := if e.minY < acc.minY then e.minY else acc.minY,
    maxX := if e.maxX > acc.maxX then e.maxX else acc.maxX,
    maxY := if e.maxY > acc.maxY then e.maxY else acc.maxY }

/-- Embedding of getBoundingBoxForShapefile (utils.py lines 542-594) over
the list of WGS84-transformed feature envelopes of the first layer.  The
function asserts buffer >= 0, folds the running min/max from the seed
values over every envelope, builds the EPSG:4326 dict and applies
bufferBoundingBox to it.  There is no emptiness check on the feature
list: with zero features the seed values are returned unchanged. -/
def getBoundingBoxForShapefile (envelopes : List Envelope) (buffer : ℚ) :
    Except AssertError BBox :=
  if 0 ≤ buffer then
    let acc := envelopes.foldl shpStep shpSeed
    .ok (bufferBoundingBox
      { minX := acc.minX, minY := acc.minY, maxX := acc.maxX, maxY := acc.maxY,
        srs := "EPSG:4326" } buffer)
  else .error .assertionError

/-- External environment of resampleRaster: the filesystem and
permission facts the Python code queries through os, plus the exit
status of the gdalwarp subprocess. -/
structure ResampleEnv where
  gdalWarpExecutable : Bool
  outputDirIsDir : Bool
  outputDirWritable : Bool
  outputExists : Bool
  gdalCommandSucceeds : Bool
deriving DecidableEq, Repr

/-- Errors raised by resampleRaster, in source order: the two IOError
checks, the two ValueError resolution checks, the assert on the resample
method, and the failure of the gdalwarp subprocess. -/
inductive ResampleError where
  | gdalWarpNotExecutable
  | outputDirNotDirectory
  | outputDirNotWritable
  | invalidTrX
  | invalidTrY
  | invalidResampleMethod
  | gdalCommandFailed
deriving DecidableEq, Repr

/-- RASTER_RESAMPLE_METHOD (utils.py line 59). -/
def RASTER_RESAMPLE_METHOD : List String :=
  ["near", "bilinear", "cubic", "cubicspline", "lanczos", "average", "mode"]

/-- Shape of the gdalwarp command line assembled by resampleRaster; the
file paths are opaque strings handled by the environment. -/
structure GdalWarpCommand where
  s_srs : Option String
  t_srs : String
  trX : ℚ
  trY : ℚ
  resampleMethod : String
deriving DecidableEq, Repr

/-- Embedding of resampleRaster (utils.py lines 242-303).  The checks are
translated in source order; the second component of the result collects
every external command the call actually executed (the Python function
touches the filesystem only through that gdalwarp subprocess, so an empty
command list means no file was created or modified). -/
def resampleRaster (env : ResampleEnv) (s_srs : Option String) (t_srs : String)
    (trX trY : ℚ) (resampleMethod : String) :
    Except ResampleError Unit × List GdalWarpCommand :=
  if env.gdalWarpExecutable = false then (.error .gdalWarpNotExecutable, [])
  else if env.outputDirIsDir = false then (.error .outputDirNotDirectory, [])
  else if env.outputDirWritable = false then (.error .outputDirNotWritable, [])
  else if trX ≤ 0 then (.error .invalidTrX, [])
  else if trY ≤ 0 then (.error .invalidTrY, [])
  else if resampleMethod ∈ RASTER_RESAMPLE_METHOD then
    if env.outputExists = true then (.ok (), [])
    else
      let cmd : GdalWarpCommand :=
        { s_srs := s_srs, t_srs := t_srs, trX := trX, trY := trY,
          resampleMethod := resampleMethod }
      if env.gdalCommandSucceeds = true then (.ok (), [cmd])
      else (.error .gdalCommandFailed, [cmd])
  else (.error .invalidResampleMethod, [])

/-- External environment of writeBboxPolygonToShapefile: the directory
and pre-existence facts the Python code queries through os. -/
structure WriteEnv where
  outputDirIsDir : Bool
  outputDirWritable : Bool
  outputExists : Bool
deriving DecidableEq, Repr

/-- Errors raised by writeBboxPolygonToShapefile before any OGR object is
created. -/
inductive WriteShpError where
  | outputDirNotDirectory
  | outputDirNotWritable
  | alreadyExists
deriving DecidableEq, Repr

/-- Content of the shapefile written by writeBboxPolygonToShapefile: the
EPSG code imported into the layer spatial reference and the linear rings
of the polygon features, each ring a list of (x, y) points in AddPoint
order. -/
structure ShapefileData where
  epsg : ℕ
  rings : List (List (ℚ × ℚ))
deriving DecidableEq, Repr

/-- Embedding of writeBboxPolygonToShapefile (utils.py lines 772-823).
After the directory checks and the already-exists refusal, the function
creates one feature holding one linear ring whose points are added in the
order (minX, minY), (minX, maxY), (maxX, maxY), (maxX, minY), in a layer
whose spatial reference is imported from EPSG 4326.  OGR driver or
feature-creation failures are external faults outside the embedding. -/
def writeBboxPolygonToShapefile (env : WriteEnv) (bbox : BBox) :
    Except WriteShpError ShapefileData :=
  if env.outputDirIsDir = false then .error .outputDirNotDirectory
  else if env.outputDirWritable = false then .error .outputDirNotWritable
  else if env.outputExists = true then .error .alreadyExists
  else
    .ok { epsg := 4326,
          rings := [[(bbox.minX, bbox.minY), (bbox.minX, bbox.maxY),
                     (bbox.maxX, bbox.maxY), (bbox.maxX, bbox.minY)]] }

/-- Single-quote character used by the Python string template that quotes
the first point ID. -/
def squote : String := "\x27"

/-- Embedding of the attribute-filter construction inside
getCoordinatesOfPointsFromShapefile (utils.py lines 391-400).  The code
asserts the ID list is non-empty (none models the assert failure).  For a
string-typed ID attribute the first term quotes its value; every later
term, in both branches, is appended by the same unquoted template. -/
def getCoordinatesWhereFilter (idAttrIsString : Bool) (pointIDAttr : String)
    (pointIDs : List String) : Option String :=
  match pointIDs with
  | [] => none
  | p0 :: rest =>
    let start :=
      if idAttrIsString then pointIDAttr ++ "=" ++ squote ++ p0 ++ squote
      else pointIDAttr ++ "=" ++ p0
    some (rest.foldl (fun w p => w ++ " and " ++ pointIDAttr ++ "=" ++ p) start)

/-- Conjunction of clauses in the sense of the spec: terms joined by the
SQL keyword and. -/
def andChain : List String → String
  | [] => ""
  | [t] => t
  | t :: t2 :: ts => t ++ " and " ++ andChain (t2 :: ts)

/-- C9: for every valid WGS84 bounding box, the containment test accepts
the midpoint computed by calculateBoundingBoxCenter. -/
theorem contains_center (b : BBox) (hx : b.minX ≤ b.maxX) (hy : b.minY ≤ b.maxY)
    (hs : b.srs = "EPSG:4326") :
    isCoordinatePairInBoundingBox b (calculateBoundingBoxCenter b) = .ok true := by
  have h1 : ¬ (b.minX + (b.maxX - b.minX) / 2 < b.minX ∨
      b.minX + (b.maxX - b.minX) / 2 > b.maxX) := by
    push_neg
    constructor <;> linarith
  have h2 : ¬ (b.minY + (b.maxY - b.minY) / 2 < b.minY ∨
      b.minY + (b.maxY - b.minY) / 2 > b.maxY) := by
    push_neg
    constructor <;> linarith
  simp only [isCoordinatePairInBoundingBox, calculateBoundingBoxCenter]
  rw [if_pos hs, if_neg h1, if_neg h2]

/-- C9 witness: a concrete valid WGS84 box contains its own center. -/
theorem contains_center_witness :
    isCoordinatePairInBoundingBox ⟨-77, 39, -76, 40, "EPSG:4326"⟩
      (calculateBoundingBoxCenter ⟨-77, 39, -76, 40, "EPSG:4326"⟩) = .ok true :=
  contains_center ⟨-77, 39, -76, 40, "EPSG:4326"⟩ (by norm_num) (by norm_num) rfl

/-- C10: the containment test uses closed boundaries: a point on any edge
of a valid WGS84 box is reported inside, and False is returned exactly
for points strictly outside the box. -/
theorem contains_closed_boundary (b : BBox) (lon lat : ℚ)
    (hx : b.minX ≤ b.maxX) (hy : b.minY ≤ b.maxY) (hs : b.srs = "EPSG:4326") :
    (((lon = b.minX ∨ lon = b.maxX) ∧ b.minY ≤ lat ∧ lat ≤ b.maxY) →
        isCoordinatePairInBoundingBox b (lon, lat) = .ok true) ∧
    (((lat = b.minY ∨ lat = b.maxY) ∧ b.minX ≤ lon ∧ lon ≤ b.maxX) →
        isCoordinatePairInBoundingBox b (lon, lat) = .ok true) ∧
    (isCoordinatePairInBoundingBox b (lon, lat) = .ok false ↔
        (lon < b.minX ∨ lon > b.maxX ∨ lat < b.minY ∨ lat > b.maxY)) := by
  have inside : ∀ (h1 : b.minX ≤ lon) (h2 : lon ≤ b.maxX) (h3 : b.minY ≤ lat)
      (h4 : lat ≤ b.maxY),
      isCoordinatePairInBoundingBox b (lon, lat) = .ok true := by
    intro h1 h2 h3 h4
    simp only [isCoordinatePairInBoundingBox]
    rw [if_pos hs, if_neg (by push_neg; exact ⟨h1, h2⟩),
      if_neg (by push_neg; exact ⟨h3, h4⟩)]
  refine ⟨?_, ?_, ?_⟩
  · rintro ⟨hor, h3, h4⟩
    rcases hor with h | h
    · exact inside (le_of_eq h.symm) (h ▸ hx) h3 h4
    · exact inside (h ▸ hx) (le_of_eq h) h3 h4
  · rintro ⟨hor, h1, h2⟩
    rcases hor with h | h
    · exact inside h1 h2 (le_of_eq h.symm) (h ▸ hy)
    · exact inside h1 h2 (h ▸ hy) (le_of_eq h)
  · simp only [isCoordinatePairInBoundingBox]
    rw [if_pos hs]
    constructor
    · intro hfalse
      by_contra hout
      push_neg at hout
      obtain ⟨o1, o2, o3, o4⟩ := hout
      rw [if_neg (by push_neg; exact ⟨o1, o2⟩),
        if_neg (by push_neg; exact ⟨o3, o4⟩)] at hfalse
      exact Bool.noConfusion (Except.ok.inj hfalse)
    · intro hout
      by_cases c1 : lon < b.minX ∨ lon > b.maxX
      · rw [if_pos c1]
      · rw [if_neg c1]
        have c2 : lat < b.minY ∨ lat > b.maxY := by
          push_neg at c1
          rcases hout with h | h | h | h

          · exact absurd h (not_lt.mpr c1.1)
          · exact absurd h (not_lt.mpr c1.2)
          · exact Or.inl h
          · exact Or.inr h
        rw [if_pos c2]

/-- C10 witness: for a concrete valid box, a point on the western edge is
inside and the strict-outside characterization holds. -/
theorem contains_closed_boundary_witness :
    (((-77 = (-77 : ℚ) ∨ -77 = (-76 : ℚ)) ∧ (39 : ℚ) ≤ 39.5 ∧ (39.5 : ℚ) ≤ 40) →
        isCoordinatePairInBoundingBox ⟨-77, 39, -76, 40, "EPSG:4326"⟩ (-77, 39.5) = .ok true) ∧
    (((39.5 = (39 : ℚ) ∨ 39.5 = (40 : ℚ)) ∧ (-77 : ℚ) ≤ -77 ∧ (-77 : ℚ) ≤ -76) →
        isCoordinatePairInBoundingBox ⟨-77, 39, -76, 40, "EPSG:4326"⟩ (-77, 39.5) = .ok true) ∧
    (isCoordinatePairInBoundingBox ⟨-77, 39, -76, 40, "EPSG:4326"⟩ (-77, 39.5) = .ok false ↔
        ((-77 : ℚ) < -77 ∨ (-77 : ℚ) > -76 ∨ (39.5 : ℚ) < 39 ∨ (39.5 : ℚ) > 40)) :=
  contains_closed_boundary ⟨-77, 39, -76, 40, "EPSG:4326"⟩ (-77) 39.5
    (by norm_num) (by norm_num) rfl

/-- C8: with an executable gdalwarp and a writable output directory, a
non-positive X or Y resolution makes resampleRaster fail with the
ValueError resolution check, with no external command executed and hence
no output file created or modified, whatever the pre-existence state of
the output file. -/
theorem resampleRaster_invalid_resolution (env : ResampleEnv) (s_srs : Option String)
    (t_srs : String) (trX trY : ℚ) (resampleMethod : String)
    (h1 : env.gdalWarpExecutable = true) (h2 : env.outputDirIsDir = true)
    (h3 : env.outputDirWritable = true) (h4 : trX ≤ 0 ∨ trY ≤ 0) :
    (resampleRaster env s_srs t_srs trX trY resampleMethod).2 = [] ∧
    ((resampleRaster env s_srs t_srs trX trY resampleMethod).1 = .error .invalidTrX ∨
     (resampleRaster env s_srs t_srs trX trY resampleMethod).1 = .error .invalidTrY) := by
  by_cases hX : trX ≤ 0
  · simp [resampleRaster, h1, h2, h3, hX]
  · have hY : trY ≤ 0 := h4.resolve_left hX
    simp [resampleRaster, h1, h2, h3, hX, hY]

/-- C8 witness: a concrete call with trX = 0 against an output file that
already exists fails with the ValueError check and runs no command. -/
theorem resampleRaster_invalid_resolution_witness :
    (resampleRaster ⟨true, true, true, true, true⟩ none "EPSG:26918" 0 30 "bilinear").2 = [] ∧
    ((resampleRaster ⟨true, true, true, true, true⟩ none "EPSG:26918" 0 30 "bilinear").1 =
        .error .invalidTrX ∨
     (resampleRaster ⟨true, true, true, true, true⟩ none "EPSG:26918" 0 30 "bilinear").1 =
        .error .invalidTrY) :=
  resampleRaster_invalid_resolution ⟨true, true, true, true, true⟩ none "EPSG:26918"
    0 30 "bilinear" rfl rfl rfl (Or.inl (by norm_num))

/-- C7 counterexample: at longitude 174 the zone formula yields 0, which
is outside the claimed range 1..60 (and latitude 0 gives isNorth =
false). -/
theorem utm_zone_range_cex :
    getUTMZoneFromCoordinates 174 0 = (0, false) ∧
    ¬ (1 ≤ (getUTMZoneFromCoordinates 174 0).1) := by
  have hfloor : ⌊((174 : ℚ) + 180) / 6⌋ = 59 := by
    norm_num
  constructor
  · unfold getUTMZoneFromCoordinates
    rw [hfloor]
    norm_num
  · unfold getUTMZoneFromCoordinates
    rw [hfloor]
    norm_num

/-- C7 amended: for longitudes in [-180, 180] the zone value
(floor((lon+180)/6)+1) mod 60 lies in 0..59 (zone 60 is never produced;
longitudes in [174, 180) give 0), and isNorth is true exactly when the
latitude is strictly positive. -/
theorem utm_zone_amended (longitude latitude : ℚ)
    (h1 : -180 ≤ longitude) (h2 : longitude ≤ 180) :
    0 ≤ (getUTMZoneFromCoordinates longitude latitude).1 ∧
    (getUTMZoneFromCoordinates longitude latitude).1 ≤ 59 ∧
    ((getUTMZoneFromCoordinates longitude latitude).2 = true ↔ 0 < latitude) := by
  unfold getUTMZoneFromCoordinates
  refine ⟨Int.emod_nonneg _ (by norm_num), ?_, ?_⟩
  · have h := Int.emod_lt_of_pos (⌊(longitude + 180) / 6⌋ + 1)
      (show (0 : ℤ) < 60 by norm_num)
    omega
  · by_cases h : latitude > 0 <;> simp [h]

/-- C7 amended witness: the bounds and the hemisphere rule evaluated at
longitude 3, latitude -20. -/
theorem utm_zone_amended_witness :
    0 ≤ (getUTMZoneFromCoordinates 3 (-20)).1 ∧
    (getUTMZoneFromCoordinates 3 (-20)).1 ≤ 59 ∧
    ((getUTMZoneFromCoordinates 3 (-20)).2 = true ↔ (0 : ℚ) < -20) :=
  utm_zone_amended 3 (-20) (by norm_num) (by norm_num)

/-- C6: buffering the box (0, 0, 1, 89) by 5 degrees takes maxY to 94,
above the upper latitude bound, yet line 618 leaves it unclamped because
it tests minY rather than maxY against 90; the claim (and the spec) say
maxY becomes 90 here. -/
theorem bufferBoundingBox_maxY_clamp_bug :
    bufferBoundingBox ⟨0, 0, 1, 89, "EPSG:4326"⟩ 5 = ⟨-5, -5, 6, 94, "EPSG:4326"⟩ ∧
    (bufferBoundingBox ⟨0, 0, 1, 89, "EPSG:4326"⟩ 5).maxY ≠ 90 := by
  constructor <;> norm_num [bufferBoundingBox]

/-- C4: on a first layer with zero features (and buffer 0) the function
does not fail; it returns the untouched seed values, a box that even
violates minX <= maxX. -/
theorem getBoundingBoxForShapefile_empty_no_error :
    getBoundingBoxForShapefile [] 0 = .ok ⟨0, 90, -180, 0, "EPSG:4326"⟩ ∧
    ¬ bboxOrd ⟨0, 90, -180, 0, "EPSG:4326"⟩ := by
  constructor
  · norm_num [getBoundingBoxForShapefile, bufferBoundingBox, shpSeed]
  · intro h
    exact absurd h.1 (by norm_num)

/-- C5: on a box whose geodesic area (here the abstracted area function
returns 2) exceeds the threshold 1, tileBoundingBox raises NameError from
the undefined names geod, NORTH and EAST instead of returning a grid of
tiles; with threshold 2 the area is within the threshold and the box is
returned as the single tile. -/
theorem tileBoundingBox_name_error :
    tileBoundingBox (fun _ => 2) ⟨-77, 39, -76, 40, "EPSG:4326"⟩ 1 =
      .error .nameErrorGeodUndefined ∧
    tileBoundingBox (fun _ => 2) ⟨-77, 39, -76, 40, "EPSG:4326"⟩ 2 =
      .ok [⟨-77, 39, -76, 40, "EPSG:4326"⟩] := by
  constructor <;> norm_num [tileBoundingBox]

lemma andChain_cons_append (w x : String) (l : List String) :
    andChain ((w ++ " and " ++ x) :: l) = w ++ " and " ++ andChain (x :: l) := by
  cases l with
  | nil => rfl
  | cons y ys => simp [andChain, String.append_assoc]

lemma foldl_and_chain (attr : String) (rest : List String) : ∀ w : String,
    rest.foldl (fun w p => w ++ " and " ++ attr ++ "=" ++ p) w =
      andChain (w :: rest.map fun v => attr ++ "=" ++ v) := by
  induction rest with
  | nil => intro w; rfl
  | cons p ps ih =>
    intro w
    simp only [List.foldl_cons, List.map_cons]
    rw [ih]
    have hassoc : w ++ " and " ++ attr ++ "=" ++ p =
        w ++ " and " ++ (attr ++ "=" ++ p) := by
      simp [String.append_assoc]
    rw [hassoc, andChain_cons_append]
    rfl

/-- C3 counterexample: with a string-typed ID attribute and the two
requested IDs 01589330 and 01581500, the built filter quotes only the
first value; it is not the all-quoted conjunction the claim states. -/
theorem whereFilter_quoting_cex :
    getCoordinatesWhereFilter true "gage_id" ["01589330", "01581500"] =
      some ("gage_id=" ++ squote ++ "01589330" ++ squote ++ " and gage_id=01581500") ∧
    getCoordinatesWhereFilter true "gage_id" ["01589330", "01581500"] ≠
      some (andChain (["01589330", "01581500"].map
        fun v => "gage_id=" ++ squote ++ v ++ squote)) := by
  constructor
  · decide
  · decide

/-- C3 amended: the filter is the conjunction idAttribute = value1 AND
idAttribute = value2 AND ... over all requested IDs, but quoting applies
only to the first value when the ID attribute is string-typed; every
later value, and every value of a numeric-typed attribute, appears
unquoted. -/
theorem whereFilter_amended :
    (∀ (attr p0 : String) (rest : List String),
        getCoordinatesWhereFilter true attr (p0 :: rest) =
          getCoordinatesWhereFilter false attr ((squote ++ p0 ++ squote) :: rest)) ∧
    (∀ (attr p0 : String) (rest : List String),
        getCoordinatesWhereFilter false attr (p0 :: rest) =
          some (andChain ((p0 :: rest).map fun v => attr ++ "=" ++ v))) := by
  constructor
  · intro attr p0 rest
    simp [getCoordinatesWhereFilter, String.append_assoc]
  · intro attr p0 rest
    simp only [getCoordinatesWhereFilter, if_neg, Bool.false_eq_true, if_false,
      List.map_cons]
    rw [foldl_and_chain]

/-- C2 counterexample: for the box (-1, -1, 1, 1) the ring actually
written is SW, NW, NE, SE, which differs from the SW, SE, NE, NW corner
order used by the geodesic area computation that the claim asserts. -/
theorem writeBboxPolygon_ring_order_cex :
    writeBboxPolygonToShapefile ⟨true, true, false⟩ ⟨-1, -1, 1, 1, "EPSG:4326"⟩ =
      .ok ⟨4326, [[(-1, -1), (-1, 1), (1, 1), (1, -1)]]⟩ ∧
    [[((-1 : ℚ), (-1 : ℚ)), (-1, 1), (1, 1), (1, -1)]] ≠
      [(calculateBoundingBoxAreaPoints ⟨-1, -1, 1, 1, "EPSG:4326"⟩).map
        fun p => (p.lon, p.lat)] := by
  constructor
  · norm_num [writeBboxPolygonToShapefile]
  · norm_num [calculateBoundingBoxAreaPoints]

/-- C2 amended: under a writable output directory with no pre-existing
file, writeBboxPolygonToShapefile writes a single 4-vertex polygon ring
with CRS imported from EPSG 4326, but the corners appear in the order SW,
NW, NE, SE: the first corner of the geodesic-area order followed by the
remaining area corners reversed, i.e. the opposite orientation of the
area computation rather than the same one. -/
theorem writeBboxPolygon_ring_amended (env : WriteEnv) (bbox : BBox)
    (h1 : env.outputDirIsDir = true) (h2 : env.outputDirWritable = true)
    (h3 : env.outputExists = false) :
    ∃ ring : List (ℚ × ℚ),
      writeBboxPolygonToShapefile env bbox = .ok ⟨4326, [ring]⟩ ∧
      ring.length = 4 ∧
      ring = ((calculateBoundingBoxAreaPoints bbox).map fun p => (p.lon, p.lat)).headI ::
        (((calculateBoundingBoxAreaPoints bbox).map fun p => (p.lon, p.lat)).tail).reverse := by
  refine ⟨[(bbox.minX, bbox.minY), (bbox.minX, bbox.maxY), (bbox.maxX, bbox.maxY),
    (bbox.maxX, bbox.minY)], ?_, rfl, ?_⟩
  · simp [writeBboxPolygonToShapefile, h1, h2, h3]
  · simp [calculateBoundingBoxAreaPoints]

/-- C2 amended witness: the written ring for a concrete box. -/
theorem writeBboxPolygon_ring_amended_witness :
    ∃ ring : List (ℚ × ℚ),
      writeBboxPolygonToShapefile ⟨true, true, false⟩ ⟨-77, 39, -76, 40, "EPSG:4326"⟩ =
        .ok ⟨4326, [ring]⟩ ∧
      ring.length = 4 ∧
      ring = ((calculateBoundingBoxAreaPoints ⟨-77, 39, -76, 40, "EPSG:4326"⟩).map
          fun p => (p.lon, p.lat)).headI ::
        (((calculateBoundingBoxAreaPoints ⟨-77, 39, -76, 40, "EPSG:4326"⟩).map
          fun p => (p.lon, p.lat)).tail).reverse :=
  writeBboxPolygon_ring_amended ⟨true, true, false⟩ ⟨-77, 39, -76, 40, "EPSG:4326"⟩
    rfl rfl rfl

lemma bufferBoundingBox_ord (b : BBox) (d : ℚ) (hx : b.minX ≤ b.maxX)
    (hy : b.minY ≤ b.maxY) (hlo : -90 ≤ b.minY) (hhi : b.minY ≤ 90) (hd : 0 ≤ d)
    (hw1 : -180 ≤ b.minX - d) (hw2 : b.maxX + d ≤ 180) :
    bboxOrd (bufferBoundingBox b d) ∧ (bufferBoundingBox b d).srs = b.srs := by
  by_cases hpos : d > 0
  · have hA : ¬ (b.minX - d < -180) := by linarith
    have hC : ¬ (b.maxX + d > 180) := by linarith
    have hD : ¬ ((if b.minY - d < -90 then (-90 : ℚ) else b.minY - d) > 90) := by
      split_ifs with hB
      · norm_num
      · linarith
    have hval : bufferBoundingBox b d =
        { minX := b.minX - d,
          minY := if b.minY - d < -90 then -90 else b.minY - d,
          maxX := b.maxX + d, maxY := b.maxY + d, srs := b.srs } := by
      simp only [bufferBoundingBox]
      rw [if_pos hpos, if_neg hA, if_neg hC, if_neg hD]
    rw [hval]
    refine ⟨⟨by dsimp only; linarith, ?_⟩, rfl⟩
    dsimp only
    split_ifs with hB
    · linarith
    · linarith
  · rw [bufferBoundingBox, if_neg hpos]
    exact ⟨⟨hx, hy⟩, rfl⟩

lemma shpStep_ord (acc e : Envelope) (he : envOrd e) : envOrd (shpStep acc e) := by
  obtain ⟨he1, he2⟩ := he
  unfold shpStep envOrd
  constructor <;> dsimp only <;> split_ifs <;> linarith

lemma foldl_shpStep_ord (l : List Envelope) (h : ∀ e ∈ l, envOrd e) (hne : l ≠ []) :
    ∀ acc, envOrd (l.foldl shpStep acc) := by
  induction l with
  | nil => exact absurd rfl hne
  | cons e es ih =>
    intro acc
    simp only [List.foldl_cons]
    by_cases hes : es = []
    · subst hes
      exact shpStep_ord acc e (h e (by simp))
    · exact ih (fun x hx => h x (by simp [hx])) hes (shpStep acc e)

lemma foldl_shpStep_bounds (d : ℚ) (l : List Envelope)
    (h : ∀ e ∈ l, -180 ≤ e.minX - d ∧ e.maxX + d ≤ 180 ∧ -90 ≤ e.minY ∧ e.minY ≤ 90) :
    ∀ acc, (-180 ≤ acc.minX - d ∧ acc.maxX + d ≤ 180 ∧ -90 ≤ acc.minY ∧ acc.minY ≤ 90) →
      (-180 ≤ (l.foldl shpStep acc).minX - d ∧ (l.foldl shpStep acc).maxX + d ≤ 180 ∧
        -90 ≤ (l.foldl shpStep acc).minY ∧ (l.foldl shpStep acc).minY ≤ 90) := by
  induction l with
  | nil =>
    intro acc hacc
    simpa using hacc
  | cons e es ih =>
    intro acc hacc
    simp only [List.foldl_cons]
    apply ih (fun x hx => h x (by simp [hx]))
    obtain ⟨p1, p2, p3, p4⟩ := h e (by simp)
    obtain ⟨q1, q2, q3, q4⟩ := hacc
    unfold shpStep
    refine ⟨?_, ?_, ?_, ?_⟩ <;> dsimp only <;> split_ifs <;> linarith

/-- C1 counterexample: parsing the wire string 10 5 3 1 yields a box with
minX > maxX, and buffering the valid WGS84 box (-179.5, 0, -179, 1) by 1
degree triggers the antimeridian wrap of minX and yields minX = 179.5 >
maxX = -178, so not every box produced by these operations satisfies
minX <= maxX. -/
theorem bbox_invariant_cex :
    bboxFromString [10, 5, 3, 1] = some ⟨10, 5, 3, 1, "EPSG:4326"⟩ ∧
    ¬ bboxOrd ⟨10, 5, 3, 1, "EPSG:4326"⟩ ∧
    bufferBoundingBox ⟨-179.5, 0, -179, 1, "EPSG:4326"⟩ 1 =
      ⟨179.5, -1, -178, 2, "EPSG:4326"⟩ ∧
    ¬ bboxOrd ⟨179.5, -1, -178, 2, "EPSG:4326"⟩ := by
  refine ⟨rfl, ?_, ?_, ?_⟩
  · intro h
    exact absurd h.1 (by norm_num)
  · norm_num [bufferBoundingBox]
  · intro h
    exact absurd h.1 (by norm_num)

/-- C1 amended: the produced boxes satisfy minX <= maxX, minY <= maxY and
carry an srs of the form EPSG:code, provided the parsed wire string lists
ordered coordinates, the buffered box has valid WGS84 latitudes and the
buffer triggers no antimeridian wrap (minX - d >= -180 and
maxX + d <= 180), and the shapefile layer is non-empty with ordered,
latitude-valid, wrap-safe transformed envelopes. -/
theorem bbox_operations_invariant :
    (∀ (x0 y0 x1 y1 : ℚ) (rest : List ℚ) (b : BBox),
        x0 ≤ x1 → y0 ≤ y1 →
        bboxFromString (x0 :: y0 :: x1 :: y1 :: rest) = some b →
        bboxOrd b ∧ epsgForm b.srs) ∧
    (∀ (b : BBox) (d : ℚ),
        bboxOrd b → -90 ≤ b.minY → b.minY ≤ 90 → 0 ≤ d →
        -180 ≤ b.minX - d → b.maxX + d ≤ 180 → epsgForm b.srs →
        bboxOrd (bufferBoundingBox b d) ∧ epsgForm (bufferBoundingBox b d).srs) ∧
    (∀ (area : BBox → ℚ) (b : BBox) (threshold : ℚ) (tiles : List BBox),
        bboxOrd b → tileBoundingBox area b threshold = .ok tiles →
        ∀ t ∈ tiles, bboxOrd t ∧ epsgForm t.srs) ∧
    (∀ (envelopes : List Envelope) (d : ℚ) (box : BBox),
        envelopes ≠ [] →
        (∀ e ∈ envelopes, envOrd e ∧ -180 ≤ e.minX - d ∧ e.maxX + d ≤ 180 ∧
            -90 ≤ e.minY ∧ e.minY ≤ 90) →
        0 ≤ d → d ≤ 180 →
        getBoundingBoxForShapefile envelopes d = .ok box →
        bboxOrd box ∧ epsgForm box.srs) := by
  refine ⟨?_, ?_, ?_, ?_⟩
  · intro x0 y0 x1 y1 rest b hx hy hsome
    simp only [bboxFromString] at hsome
    injection hsome with hb
    subst hb
    exact ⟨⟨hx, hy⟩, epsgForm_wgs84⟩
  · intro b d hord hlo hhi hd hw1 hw2 hepsg
    obtain ⟨hord2, hsrs⟩ :=
      bufferBoundingBox_ord b d hord.1 hord.2 hlo hhi hd hw1 hw2
    exact ⟨hord2, hsrs ▸ hepsg⟩
  · intro area b threshold tiles hord heq t ht
    unfold tileBoundingBox at heq
    split_ifs at heq with h1 h2 h3
    · injection heq with htiles
      subst htiles
      rw [List.mem_singleton] at ht
      subst ht
      exact ⟨hord, h1 ▸ epsgForm_wgs84⟩
    · injection heq with htiles
      subst htiles
      exact absurd ht (List.not_mem_nil t)
  · intro envelopes d box hne henv hd hd180 heq
    unfold getBoundingBoxForShapefile at heq
    rw [if_pos hd] at heq
    injection heq with hbox
    have hacc_ord : envOrd (envelopes.foldl shpStep shpSeed) :=
      foldl_shpStep_ord envelopes (fun e he => (henv e he).1) hne shpSeed
    have hacc_bounds := foldl_shpStep_bounds d envelopes
      (fun e he => (henv e he).2) shpSeed
      (by
        unfold shpSeed
        refine ⟨?_, ?_, ?_, ?_⟩ <;> dsimp only <;> linarith)
    obtain ⟨w1, w2, w3, w4⟩ := hacc_bounds
    obtain ⟨hord2, hsrs⟩ := bufferBoundingBox_ord
      { minX := (envelopes.foldl shpStep shpSeed).minX,
        minY := (envelopes.foldl shpStep shpSeed).minY,
        maxX := (envelopes.foldl shpStep shpSeed).maxX,
        maxY := (envelopes.foldl shpStep shpSeed).maxY, srs := "EPSG:4326" } d
      hacc_ord.1 hacc_ord.2 w3 w4 hd w1 w2
    rw [← hbox]
    exact ⟨hord2, hsrs ▸ epsgForm_wgs84⟩

/-- C1 amended witness: the four amended clauses evaluated at concrete
inputs built from the box (-77, 39, -76, 40). -/
theorem bbox_operations_invariant_witness :
    (bboxOrd ⟨-77, 39, -76, 40, "EPSG:4326"⟩ ∧
        epsgForm (BBox.srs ⟨-77, 39, -76, 40, "EPSG:4326"⟩)) ∧
    (bboxOrd (bufferBoundingBox ⟨-77, 39, -76, 40, "EPSG:4326"⟩ 1) ∧
        epsgForm (bufferBoundingBox ⟨-77, 39, -76, 40, "EPSG:4326"⟩ 1).srs) ∧
    (bboxOrd ⟨-77, 39, -76, 40, "EPSG:4326"⟩ ∧
        epsgForm (BBox.srs ⟨-77, 39, -76, 40, "EPSG:4326"⟩)) ∧
    (bboxOrd ⟨-77, 39, -76, 40, "EPSG:4326"⟩ ∧
        epsgForm (BBox.srs ⟨-77, 39, -76, 40, "EPSG:4326"⟩)) := by
  refine ⟨?_, ?_, ?_, ?_⟩
  · exact bbox_operations_invariant.1 (-77) 39 (-76) 40 []
      ⟨-77, 39, -76, 40, "EPSG:4326"⟩ (by norm_num) (by norm_num) rfl
  · exact bbox_operations_invariant.2.1 ⟨-77, 39, -76, 40, "EPSG:4326"⟩ 1
      ⟨by norm_num, by norm_num⟩ (by norm_num) (by norm_num) (by norm_num)
      (by norm_num) (by norm_num) epsgForm_wgs84
  · exact bbox_operations_invariant.2.2.1 (fun _ => 1)
      ⟨-77, 39, -76, 40, "EPSG:4326"⟩ 2 [⟨-77, 39, -76, 40, "EPSG:4326"⟩]
      ⟨by norm_num, by norm_num⟩ (by norm_num [tileBoundingBox])
      ⟨-77, 39, -76, 40, "EPSG:4326"⟩ (by simp)
  · exact bbox_operations_invariant.2.2.2 [⟨-77, 39, -76, 40⟩] 0
      ⟨-77, 39, -76, 40, "EPSG:4326"⟩ (by simp)
      (by
        intro e he
        simp only [List.mem_singleton] at he
        subst he
        exact ⟨⟨by norm_num, by norm_num⟩, by norm_num, by norm_num, by norm_num,
          by norm_num⟩)
      (by norm_num) (by norm_num)
      (by norm_num [getBoundingBoxForShapefile, shpStep, shpSeed, bufferBoundingBox,
        List.foldl])
